import Mathlib

/-!
Shallow embedding of `FRTMProxy/bridge.py` (a mitmproxy control-plane addon).

Modelling conventions:
* Python strings are modelled as `List Char` (`Str`); only ASCII behaviour of
  `str.lower`/`str.upper`/`str.strip` is modelled, which covers every string the
  bridge manipulates.
* Python `dict` tables are modelled as association lists (insertion-ordered,
  exact-key replacement) or, for the process-wide registries, as functions
  `Str → Option _` (Python dict lookup semantics; ordering of the registries is
  never observed by the bridge).
* Bytes (`bytes`) are `List Nat`; a byte is `< 256`.  `message.get_text()` /
  `set_text` are modelled as the pointwise `Char.ofNat` / `Char.toNat` maps
  (the latin-1/ASCII view of a byte string); charset negotiation is library
  behaviour outside the model.
* `base64.b64encode` / `base64.b64decode(_, validate=False)` are modelled by
  `b64encode` / `pyB64Decode` below: standard base64 with padding; the decoder
  discards characters outside the alphabet, reads data characters up to the
  first `=`, and fails (models the raised `binascii.Error`, caught by the
  source) when the padded length is not a multiple of 4 or the number of data
  characters is 1 mod 4.
* Randomness (`random.random()`, `random.uniform`) is passed in as explicit
  rational arguments; `time.sleep` is modelled by returning the slept duration;
  `time.time()`/client address in events are not modelled (no claim reads them).
-/

namespace Bridge

abbrev Str := List Char

/-- ASCII model of `str.lower` on one character. -/
def pyCharLower (c : Char) : Char :=
  if 'A' ≤ c ∧ c ≤ 'Z' then Char.ofNat (c.toNat + 32) else c

/-- ASCII model of `str.lower`. -/
def pyLower (s : Str) : Str := s.map pyCharLower

/-- ASCII model of `str.upper` on one character. -/
def pyCharUpper (c : Char) : Char :=
  if 'a' ≤ c ∧ c ≤ 'z' then Char.ofNat (c.toNat - 32) else c

/-- ASCII model of `str.upper`. -/
def pyUpper (s : Str) : Str := s.map pyCharUpper

/-- The characters `str.strip()` removes. -/
def isPySpace (c : Char) : Bool :=
  c == ' ' || c == '\t' || c == '\n' || c == '\r' || c == '\x0b' || c == '\x0c'

/-- Model of `str.strip()`: drop whitespace from both ends. -/
def pyStrip (s : Str) : Str :=
  ((s.dropWhile isPySpace).reverse.dropWhile isPySpace).reverse

/-- Model of Python's `needle in hay` substring test. -/
def strContains (needle : Str) : Str → Bool
  | [] => needle.isEmpty
  | c :: t => needle.isPrefixOf (c :: t) || strContains needle t

/-- Model of `s.split(sep, 1)` when it yields two parts (`none` models the
`ValueError` of unpacking a single part: `sep` absent). -/
def splitFirst (c : Char) : Str → Option (Str × Str)
  | [] => none
  | x :: xs =>
      if x = c then some ([], xs)
      else (splitFirst c xs).map (fun p => (x :: p.1, p.2))

/-! ## base64 (library model) -/

def B64_ALPHABET : Str :=
  "ABCDEFGHIJKLMNOPQRSTUVWXYZabcdefghijklmnopqrstuvwxyz0123456789+/".data

def encB64 (n : Nat) : Char := B64_ALPHABET.getD n 'A'

def isB64Char (c : Char) : Bool := B64_ALPHABET.contains c

def decB64 (c : Char) : Nat := B64_ALPHABET.indexOf c

/-- Standard base64 encoding of a byte list, three bytes at a time. -/
def encodeChunks : List Nat → Str
  | [] => []
  | [a] => [encB64 (a / 4), encB64 (a % 4 * 16), '=', '=']
  | [a, b] => [encB64 (a / 4), encB64 (a % 4 * 16 + b / 16), encB64 (b % 16 * 4), '=']
  | a :: b :: c :: rest =>
      encB64 (a / 4) :: encB64 (a % 4 * 16 + b / 16) ::
      encB64 (b % 16 * 4 + c / 64) :: encB64 (c % 64) :: encodeChunks rest

/-- Model of `base64.b64encode(data).decode("ascii")`. -/
def b64encode (data : List Nat) : Str := encodeChunks data

/-- Decode base64 data characters (no padding), four at a time; a trailing
group of two or three characters yields one or two bytes. -/
def decodeQuads : Str → List Nat
  | c1 :: c2 :: c3 :: c4 :: rest =>
      (decB64 c1 * 4 + decB64 c2 / 16) ::
      (decB64 c2 % 16 * 16 + decB64 c3 / 4) ::
      (decB64 c3 % 4 * 64 + decB64 c4) :: decodeQuads rest
  | [c1, c2] => [decB64 c1 * 4 + decB64 c2 / 16]
  | [c1, c2, c3] =>
      [decB64 c1 * 4 + decB64 c2 / 16, decB64 c2 % 16 * 16 + decB64 c3 / 4]
  | _ => []

/-- Model of `base64.b64decode(s, validate=False)`; `none` models the raised
`binascii.Error` on bad padding. -/
def pyB64Decode (s : Str) : Option (List Nat) :=
  let cs := s.filter (fun c => isB64Char c || c == '=')
  let d := cs.takeWhile (fun c => c != '=')
  if cs.length % 4 ≠ 0 then none
  else if d.length % 4 = 1 then none
  else some (decodeQuads d)

/-! ## Codec (`bridge.py` lines 56-77 and 176-192) -/

/-- A mitmproxy response: status, ordered headers, raw body bytes. -/
structure Response where
  status_code : Int
  headers : List (Str × Str)
  content : List Nat
deriving DecidableEq, Repr

/-- Case-insensitive header lookup, first match — models
`mitmproxy.http.Headers.get` (multi-value joining is not modelled; no claim
involves repeated header names). -/
def headersGetCI (hs : List (Str × Str)) (name : Str) : Option Str :=
  (hs.find? (fun kv => pyLower kv.1 == pyLower name)).map (fun kv => kv.2)

/-- `_content_type`: `(headers.get("content-type") or "").strip()`. -/
def _content_type (hs : List (Str × Str)) : Str :=
  pyStrip ((headersGetCI hs "content-type".data).getD [])

/-- `_is_image_content_type`. -/
def _is_image_content_type (ct : Str) : Bool :=
  "image/".data.isPrefixOf (pyLower ct)

/-- The inline mime computation of `serialize_message_body`:
`content_type.split(";", 1)[0].strip() or "application/octet-stream"`. -/
def baseMime (ct : Str) : Str :=
  let m := pyStrip (ct.takeWhile (fun c => c != ';'))
  if m = [] then "application/octet-stream".data else m

/-- `_as_data_url`. -/
def _as_data_url (mime : Str) (data : List Nat) : Str :=
  "data:".data ++ mime ++ ";base64,".data ++ b64encode data

/-- Model of `message.get_text()` on a response (latin-1/ASCII byte view). -/
def getText (r : Response) : Str := r.content.map Char.ofNat

/-- `serialize_message_body` (lines 69-77). -/
def serialize_message_body (r : Response) : Str :=
  let mime := baseMime (_content_type r.headers)
  if _is_image_content_type mime then _as_data_url mime r.content
  else getText r

/-- `try_decode_data_url` (lines 176-192). -/
def try_decode_data_url (payload : Str) : Option (Str × List Nat) :=
  if !("data:".data.isPrefixOf payload) then none
  else
    match splitFirst ',' payload with
    | none => none
    | some (meta, b64part) =>
        if !(strContains ";base64".data meta) then none
        else
          let m := pyStrip ((meta.drop 5).takeWhile (fun c => c != ';'))
          let mime := if m = [] then "application/octet-stream".data else m
          match pyB64Decode b64part with
          | none => none
          | some data => some (mime, data)

/-! ## Data model: flows, rules, profile, registry state -/

/-- A mitmproxy request.  The URL is modelled structurally by its `host` and
`path` (path includes the query string); mitmproxy parses URL strings and
raises on malformed ones — URL strings are therefore modelled already parsed,
and `pretty_url` is rendered as `host ++ path`. -/
structure Request where
  method : Str
  host : Str
  path : Str
  headers : List (Str × Str)
  body : Str
deriving DecidableEq, Repr

/-- An HTTP flow (one exchange): stable id, request, optional response. -/
structure Flow where
  id : Str
  request : Request
  response : Option Response
deriving DecidableEq, Repr

/-- A stored map-local override rule.  Fields are `Option` because
`apply_map_local_response` reads them with `rule.get(..., default)`;
the bridge itself always stores all three fields. -/
structure Rule where
  body : Option Str
  headers : Option (List (Str × Str))
  status : Option Int
deriving DecidableEq, Repr

/-- A breakpoint rule: `{"request": bool, "response": bool}`. -/
structure BpRule where
  request : Bool
  response : Bool
deriving DecidableEq, Repr

/-- The active traffic profile, fields as stored by
`update_traffic_profile`. -/
structure Profile where
  id : Str
  name : Str
  description : Str
  latency_ms : Int
  jitter_ms : Int
  downstream_kbps : Int
  upstream_kbps : Int
  packet_loss : ℚ
deriving DecidableEq, Repr

/-- `TRAFFIC_PROFILE_DEFAULT` (lines 15-24). -/
def TRAFFIC_PROFILE_DEFAULT : Profile :=
  { id := "traffic.off".data
    name := "Nessun profilo".data
    description := []
    latency_ms := 0
    jitter_ms := 0
    downstream_kbps := 0
    upstream_kbps := 0
    packet_loss := 0 }

/-- The payload of a `traffic_profile` command, after Python's `int()` /
`float()` conversions (which are library behaviour; a conversion failure
raises and leaves the active profile unchanged — not modelled, no claim
involves it).  `none` fields model absent or `null` JSON keys. -/
structure ProfilePayload where
  id : Option Str
  name : Option Str
  description : Option Str
  latency_ms : Option Int
  jitter_ms : Option Int
  downstream_kbps : Option Int
  upstream_kbps : Option Int
  packet_loss : Option ℚ
deriving DecidableEq, Repr

/-- The `request` edit payload of a `breakpoint_continue` command.  The outer
`Option` at use sites models Python truthiness of the whole dict (`None` or
`{}` is falsy); a payload with all fields `none` models a non-empty dict whose
relevant keys are absent or `null`. -/
structure ReqPayload where
  method : Option Str
  url : Option (Str × Str)
  body : Option Str
  headers : Option (List (Str × Str))
deriving DecidableEq, Repr

/-- The `response` edit payload of a `breakpoint_continue` command. -/
structure RespPayload where
  status : Option Int
  headers : Option (List (Str × Str))
  body : Option Str
deriving DecidableEq, Repr

/-- Python `dict` insertion on an association list: exact-key replacement in
place, else append (insertion order preserved). -/
def dictSet (m : List (Str × Str)) (k v : Str) : List (Str × Str) :=
  if m.any (fun p => p.1 == k) then m.map (fun p => if p.1 = k then (k, v) else p)
  else m ++ [(k, v)]

/-- `mitmproxy.http.Headers.__setitem__`: replaces any same-named header
case-insensitively, else appends.  (Replacement position is modelled as
append; no claim observes the order of a replaced header.) -/
def headersSet (hs : List (Str × Str)) (k v : Str) : List (Str × Str) :=
  hs.filter (fun p => pyLower p.1 ≠ pyLower k) ++ [(k, v)]

/-- Functional update of a registry table. -/
def fset {α : Type} (m : Str → Option α) (k : Str) (v : α) : Str → Option α :=
  fun x => if x = k then some v else m x

/-- Functional removal (`dict.pop(k, None)`). -/
def ferase {α : Type} (m : Str → Option α) (k : Str) : Str → Option α :=
  fun x => if x = k then none else m x

/-- The process-wide mutable state of the bridge.  `FLOW_BY_KEY` maps a key to
the *id* of the flow object it references: Python's registries alias one flow
object from both tables, so the object heap is `FLOW_BY_ID` and the by-key
table holds references into it. -/
structure St where
  FLOW_BY_ID : Str → Option Flow
  FLOW_BY_KEY : Str → Option Str
  MAP_LOCAL_RULES : Str → Option Rule
  BREAKPOINT_RULES : Str → Option BpRule
  ACTIVE_TRAFFIC_PROFILE : Profile

/-- `flow_key` (lines 28-32): host plus path with the query stripped. -/
def flow_key (flow : Flow) : Str :=
  flow.request.host ++ flow.request.path.takeWhile (fun c => c != '?')

/-- `is_loopback_host` (lines 34-45). -/
def is_loopback_host (host : Str) : Bool :=
  if host = [] then false
  else
    let h := pyLower (pyStrip host)
    if h = "localhost".data ∨ h = "::1".data ∨ h = "0.0.0.0".data then true
    else if "127.".data.isPrefixOf h then true
    else if "[::1]".data.isPrefixOf h then true
    else false

/-! ## Traffic shaper (lines 79-174) -/

/-- `traffic_profile_enabled`. -/
def traffic_profile_enabled (p : Profile) : Bool :=
  decide (p.id ≠ TRAFFIC_PROFILE_DEFAULT.id)

/-- `update_traffic_profile` (lines 82-98) as a pure function on the payload;
`none` models a payload that is absent or not a dict
(`isinstance(profile_payload, dict)` fails), in which case the merged profile
is exactly the default. -/
def update_traffic_profile (payload : Option ProfilePayload) : Profile :=
  match payload with
  | none => TRAFFIC_PROFILE_DEFAULT
  | some pp =>
      { id := pp.id.getD TRAFFIC_PROFILE_DEFAULT.id
        name := pp.name.getD TRAFFIC_PROFILE_DEFAULT.name
        description := pp.description.getD []
        latency_ms := max (pp.latency_ms.getD 0) 0
        jitter_ms := max (pp.jitter_ms.getD 0) 0
        downstream_kbps := max (pp.downstream_kbps.getD 0) 0
        upstream_kbps := max (pp.upstream_kbps.getD 0) 0
        packet_loss := max (min (pp.packet_loss.getD 0) 1) 0 }

/-- `apply_profile_latency` (lines 100-112): `j` is the
`random.uniform(-jitter, jitter)` draw; the result is the slept duration in
seconds, `none` when no sleep happens. -/
def apply_profile_latency (p : Profile) (j : ℚ) : Option ℚ :=
  if !traffic_profile_enabled p then none
  else
    let base : ℚ := p.latency_ms
    let total := if p.jitter_ms ≠ 0 ∧ 0 < p.jitter_ms then base + j else base
    if total ≤ 0 then none
    else some (max (total / 1000) 0)

/-- `apply_profile_bandwidth` (lines 114-126): result is the slept duration,
`none` when the sleep is skipped. -/
def apply_profile_bandwidth (p : Profile) (byte_count : Int) (kbps_limit : Int) :
    Option ℚ :=
  if !traffic_profile_enabled p then none
  else if byte_count = 0 ∨ byte_count ≤ 0 then none
  else if kbps_limit = 0 ∨ kbps_limit ≤ 0 then none
  else
    let bytes_per_second : Int := max (kbps_limit * 125) 1
    let delay : ℚ := (byte_count : ℚ) / (bytes_per_second : ℚ)
    if delay ≤ 0 then none else some delay

/-- `http.Response.make` (the engine may additionally synthesize a
`content-length` header — library behaviour outside the model). -/
def responseMake (status : Int) (content : List Nat) (headers : List (Str × Str)) :
    Response :=
  { status_code := status, headers := headers, content := content }

/-- Bytes of an ASCII string literal body. -/
def textBytes (s : Str) : List Nat := s.map Char.toNat

/-- `maybe_inject_packet_loss` (lines 128-142): `r` is the `random.random()`
draw in `[0,1)`; returns the updated flow and whether loss was injected. -/
def maybe_inject_packet_loss (p : Profile) (r : ℚ) (flow : Flow) : Flow × Bool :=
  if !traffic_profile_enabled p then (flow, false)
  else
    let loss_rate := p.packet_loss
    if loss_rate ≤ 0 then (flow, false)
    else if r > loss_rate then (flow, false)
    else
      ({ flow with
          response := some (responseMake 598
            (textBytes "Simulated packet loss (traffic profile)".data)
            [("Content-Type".data, "text/plain".data)]) }, true)

/-- `tag_response_with_profile` (lines 144-151). -/
def tag_response_with_profile (p : Profile) (flow : Flow) : Flow :=
  if !traffic_profile_enabled p then flow
  else
    match flow.response with
    | some resp =>
        { flow with
            response := some { resp with
              headers := headersSet resp.headers "X-FRTraffic-Profile".data p.id } }
    | none => flow

/-- The sleeps performed while shaping one direction. -/
structure Shaping where
  latency : Option ℚ
  bandwidth : Option ℚ
deriving DecidableEq, Repr

/-- `apply_profile_to_request` (lines 153-158): only sleeps, never mutates. -/
def apply_profile_to_request (p : Profile) (j : ℚ) (flow : Flow) : Shaping :=
  if !traffic_profile_enabled p then ⟨none, none⟩
  else
    ⟨apply_profile_latency p j,
     apply_profile_bandwidth p flow.request.body.length p.upstream_kbps⟩

/-- The outcome of `apply_profile_to_response`. -/
structure RespShapeOut where
  flow : Flow
  latency : Option ℚ
  bandwidth : Option ℚ
deriving DecidableEq, Repr

/-- `apply_profile_to_response` (lines 160-174).  Note the source calls
`tag_response_with_profile` *before* the early return on injected packet
loss. -/
def apply_profile_to_response (p : Profile) (j r : ℚ) (flow : Flow) : RespShapeOut :=
  if !traffic_profile_enabled p then ⟨flow, none, none⟩
  else
    let lat := apply_profile_latency p j
    let inj := maybe_inject_packet_loss p r flow
    let flow2 := tag_response_with_profile p inj.1
    if inj.2 then ⟨flow2, lat, none⟩
    else
      let body := match flow2.response with
        | some resp => resp.content
        | none => []
      ⟨flow2, lat, apply_profile_bandwidth p body.length p.downstream_kbps⟩

/-! ## Map-local, breakpoints, edits, events (lines 226-273, 442-458) -/

/-- `should_break` / `breakpoint_rule_for` (lines 233-238):
`rule.get(phase)` on the stored `{"request": _, "response": _}` dict. -/
def should_break (bp : Str → Option BpRule) (flow : Flow) (phase : Str) : Bool :=
  match bp (flow_key flow) with
  | none => false
  | some rl =>
      if phase = "request".data then rl.request
      else if phase = "response".data then rl.response
      else false

/-- The response `apply_map_local_response` (lines 442-458) synthesizes from a
rule: body/status with `rule.get` defaults, a `Content-Type:
application/json` injected when no key of the rule's headers is
`content-type` case-insensitively, and the `X-Map-Local: true` marker. -/
def mapLocalHeaders (rule : Rule) : List (Str × Str) :=
  let headers := rule.headers.getD []
  let headers :=
    if !(headers.any (fun h => pyLower h.1 == "content-type".data)) then
      dictSet headers "Content-Type".data "application/json".data
    else headers
  dictSet headers "X-Map-Local".data "true".data

/-- `apply_map_local_response` (lines 442-458): sets the flow's response. -/
def apply_map_local_response (flow : Flow) (rule : Rule) : Flow :=
  { flow with
      response := some (responseMake (rule.status.getD 200)
        (textBytes (rule.body.getD [])) (mapLocalHeaders rule)) }

/-- `apply_request_updates` (lines 240-256).  `none` payload models a falsy
(`None` or `{}`) `cmd.get("request")`: complete no-op.  Note the source
clears and rewrites the header set *unconditionally* once the payload is
truthy. -/
def apply_request_updates (req : Request) (payload : Option ReqPayload) : Request :=
  match payload with
  | none => req
  | some pl =>
      let req :=
        match pl.method with
        | some m => if m ≠ [] then { req with method := pyUpper m } else req
        | none => req
      let req :=
        match pl.url with
        | some u => { req with host := u.1, path := u.2 }
        | none => req
      let req := { req with body := pl.body.getD [] }
      { req with headers := pl.headers.getD [] }

/-- `apply_response_updates` (lines 258-273). -/
def apply_response_updates (flow : Flow) (payload : Option RespPayload) : Flow :=
  match payload with
  | none => flow
  | some pl =>
      let default_status :=
        match flow.response with
        | some r => r.status_code
        | none => 200
      let status :=
        match pl.status with
        | some s => if s = 0 then default_status else s
        | none => default_status
      let headers := pl.headers.getD []
      let body := pl.body.getD []
      match try_decode_data_url body with
      | some (mime, data) =>
          let headers :=
            if mime ≠ [] ∧
                !(headers.any (fun h => pyLower h.1 == "content-type".data)) then
              dictSet headers "Content-Type".data mime
            else headers
          { flow with response := some (responseMake status data headers) }
      | none =>
          { flow with response := some (responseMake status (textBytes body) headers) }

/-- The breakpoint metadata attached to an event (`breakpoint_snapshot`,
lines 226-231). -/
structure BpMeta where
  phase : Str
  state : Str
  key : Str
deriving DecidableEq, Repr

/-- One line of the JSON event protocol (`send_flow_event`, lines 194-224);
`timestamp` and `client` are not modelled. -/
structure Event where
  event : Str
  id : Str
  reqMethod : Str
  reqUrl : Str
  reqHeaders : List (Str × Str)
  reqBody : Str
  response : Option (Int × List (Str × Str) × Str)
  breakpoint_ : Option BpMeta
deriving DecidableEq, Repr

/-- `send_flow_event` as a pure event builder. -/
def send_flow_event (flow : Flow) (event : Str) (meta : Option BpMeta) : Event :=
  { event := event
    id := flow.id
    reqMethod := flow.request.method
    reqUrl := flow.request.host ++ flow.request.path
    reqHeaders := flow.request.headers
    reqBody := flow.request.body
    response := flow.response.map
      (fun r => (r.status_code, r.headers, serialize_message_body r))
    breakpoint_ := meta }

/-! ## The command bridge (`handle_command`, lines 287-439) -/

/-- One JSON command from the controller, dispatched on its `type` field.
Fields are `Option` where the handler reads them with `cmd.get`; the
`retry_flow` constructor additionally carries the fresh `uuid4` id as an
explicit input. -/
inductive Cmd where
  | traffic_profile (profile : Option ProfilePayload)
  | mock_response (id : Str) (body : Option Str) (status : Option Int)
      (headers : Option (List (Str × Str)))
  | mock_rule (key : Str) (body : Option Str) (status : Option Int)
      (headers : Option (List (Str × Str))) (enabled : Option Bool)
  | delete_rule (key : Str)
  | mock_request (id : Str) (body : Option Str)
      (headers : Option (List (Str × Str)))
  | breakpoint_rule (key : Str) (request : Option Bool) (response : Option Bool)
  | breakpoint_continue (id : Str) (phase : Option Str)
      (request : Option ReqPayload) (response : Option RespPayload)
  | retry_flow (id : Str) (method : Option Str) (url : Option (Str × Str))
      (headers : Option (List (Str × Str))) (body : Option Str) (freshId : Str)
  | other

/-- The observable outcome of one command: the new global state, the protocol
events written to stdout, and the flow ids on which `flow.resume()` was
called. -/
structure CmdOut where
  st : St
  events : List Event
  resumed : List Str

/-- `handle_command` (lines 287-439).  Debug/log lines are not modelled.
`mock_response` / `mock_request` / `mock_rule` / `delete_rule` mutate the flow
object in place in Python; here the heap entry `FLOW_BY_ID flow.id` is
rewritten, which every alias (`FLOW_BY_KEY`) observes. -/
def handle_command (st : St) (cmd : Cmd) : CmdOut :=
  match cmd with
  | .traffic_profile p =>
      ⟨{ st with ACTIVE_TRAFFIC_PROFILE := update_traffic_profile p }, [], []⟩
  | .mock_response fid body status headers =>
      match st.FLOW_BY_ID fid with
      | none => ⟨st, [], []⟩
      | some flow =>
          let bodyv := body.getD []
          let headersv := (headers.getD [])
          let new_rule : Rule :=
            { body := some bodyv
              headers := some (if headersv ≠ [] then headersv else
                match flow.response with
                | some r => r.headers
                | none => [])
              status := some (match status with
                | some s => if s = 0 then
                    (match flow.response with
                     | some r => r.status_code
                     | none => 200)
                  else s
                | none =>
                    match flow.response with
                    | some r => r.status_code
                    | none => 200) }
          let flow' := apply_map_local_response flow new_rule
          ⟨{ st with
              MAP_LOCAL_RULES := fset st.MAP_LOCAL_RULES (flow_key flow) new_rule
              FLOW_BY_ID := fset st.FLOW_BY_ID flow'.id flow' }, [], []⟩
  | .mock_rule key body status headers enabled =>
      if key = [] then ⟨st, [], []⟩
      else if !(enabled.getD true) then
        ⟨{ st with MAP_LOCAL_RULES := ferase st.MAP_LOCAL_RULES key }, [], []⟩
      else
        let new_rule : Rule :=
          { body := some (body.getD []), headers := some (headers.getD [])
            status := some (status.getD 200) }
        let st1 := { st with MAP_LOCAL_RULES := fset st.MAP_LOCAL_RULES key new_rule }
        match (st1.FLOW_BY_KEY key).bind st1.FLOW_BY_ID with
        | some flow =>
            let flow' := apply_map_local_response flow new_rule
            ⟨{ st1 with FLOW_BY_ID := fset st1.FLOW_BY_ID flow'.id flow' }, [], []⟩
        | none => ⟨st1, [], []⟩
  | .delete_rule key =>
      match st.MAP_LOCAL_RULES key with
      | none => ⟨st, [], []⟩
      | some _ =>
          let st1 := { st with MAP_LOCAL_RULES := ferase st.MAP_LOCAL_RULES key }
          match (st1.FLOW_BY_KEY key).bind st1.FLOW_BY_ID with
          | some flow =>
              let flow' := { flow with response := none }
              ⟨{ st1 with FLOW_BY_ID := fset st1.FLOW_BY_ID flow'.id flow' }, [], []⟩
          | none => ⟨st1, [], []⟩
  | .mock_request fid body headers =>
      match st.FLOW_BY_ID fid with
      | none => ⟨st, [], []⟩
      | some flow =>
          let req1 := { flow.request with body := body.getD [] }
          let req2 :=
            if headers.getD [] ≠ [] then { req1 with headers := headers.getD [] }
            else req1
          let flow' := { flow with request := req2 }
          ⟨{ st with FLOW_BY_ID := fset st.FLOW_BY_ID flow'.id flow' }, [], []⟩
  | .breakpoint_rule key request response =>
      if key = [] then ⟨st, [], []⟩
      else
        let request_flag := request.getD false
        let response_flag := response.getD false
        if request_flag || response_flag then
          ⟨{ st with
              BREAKPOINT_RULES :=
                fset st.BREAKPOINT_RULES key ⟨request_flag, response_flag⟩ }, [], []⟩
        else
          ⟨{ st with BREAKPOINT_RULES := ferase st.BREAKPOINT_RULES key }, [], []⟩
  | .breakpoint_continue fid phase request response =>
      match st.FLOW_BY_ID fid with
      | none => ⟨st, [], []⟩
      | some flow =>
          if phase = some "request".data then
            let old_key := flow_key flow
            let flow' := { flow with request := apply_request_updates flow.request request }
            let new_key := flow_key flow'
            let byKey1 :=
              if old_key ≠ new_key then ferase st.FLOW_BY_KEY old_key
              else st.FLOW_BY_KEY
            ⟨{ st with
                FLOW_BY_ID := fset st.FLOW_BY_ID flow'.id flow'
                FLOW_BY_KEY := fset byKey1 new_key flow'.id },
             [send_flow_event flow' "request".data
               (some ⟨"request".data, "released".data, flow_key flow'⟩)],
             [flow'.id]⟩
          else if phase = some "response".data then
            let flow' := apply_response_updates flow response
            ⟨{ st with
                FLOW_BY_ID := fset st.FLOW_BY_ID flow'.id flow'
                FLOW_BY_KEY := fset st.FLOW_BY_KEY (flow_key flow') flow'.id },
             [send_flow_event flow' "response".data
               (some ⟨"response".data, "released".data, flow_key flow'⟩)],
             [flow'.id]⟩
          else
            ⟨st, [], [flow.id]⟩
  | .retry_flow fid method url headers body freshId =>
      match st.FLOW_BY_ID fid with
      | none => ⟨st, [], []⟩
      | some flow =>
          let methodv :=
            pyUpper (match method with
              | some m => if m ≠ [] then m else
                  (if flow.request.method ≠ [] then flow.request.method
                   else "GET".data)
              | none =>
                  if flow.request.method ≠ [] then flow.request.method
                  else "GET".data)
          let hostPath := url.getD (flow.request.host, flow.request.path)
          let req :=
            { flow.request with
                method := methodv, host := hostPath.1, path := hostPath.2
                body := body.getD [] }
          let req :=
            if headers.getD [] ≠ [] then { req with headers := headers.getD [] }
            else req
          let cloned : Flow := { id := freshId, request := req, response := none }
          ⟨{ st with
              FLOW_BY_ID := fset st.FLOW_BY_ID cloned.id cloned
              FLOW_BY_KEY := fset st.FLOW_BY_KEY (flow_key cloned) cloned.id },
           [], []⟩
  | .other => ⟨st, [], []⟩

/-! ## The engine hooks (`request`, `response`; lines 461-501) -/

/-- The observable outcome of one hook invocation: the new global state,
whether `flow.intercept()` was called, the shaping sleeps, and the emitted
events. -/
structure HookOut where
  st : St
  intercepted : Bool
  latency : Option ℚ
  bandwidth : Option ℚ
  events : List Event

/-- The `request` hook (lines 461-484); `j` is the jitter draw. -/
def request_hook (st : St) (j : ℚ) (flow : Flow) : HookOut :=
  if is_loopback_host flow.request.host then ⟨st, false, none, none, []⟩
  else
    let st1 := { st with
      FLOW_BY_ID := fset st.FLOW_BY_ID flow.id flow
      FLOW_BY_KEY := fset st.FLOW_BY_KEY (flow_key flow) flow.id }
    let waiting := should_break st1.BREAKPOINT_RULES flow "request".data
    let sh := apply_profile_to_request st1.ACTIVE_TRAFFIC_PROFILE j flow
    let stFlow :=
      match st1.MAP_LOCAL_RULES (flow_key flow) with
      | some rule =>
          let flow' := apply_map_local_response flow rule
          ({ st1 with FLOW_BY_ID := fset st1.FLOW_BY_ID flow'.id flow' }, flow')
      | none => (st1, flow)
    let meta := if waiting then
        some (⟨"request".data, "waiting".data, flow_key stFlow.2⟩ : BpMeta)
      else none
    ⟨stFlow.1, waiting, sh.latency, sh.bandwidth,
     [send_flow_event stFlow.2 "request".data meta]⟩

/-- The `response` hook (lines 486-501); `j` is the jitter draw, `r` the
packet-loss draw. -/
def response_hook (st : St) (j r : ℚ) (flow : Flow) : HookOut :=
  if is_loopback_host flow.request.host then ⟨st, false, none, none, []⟩
  else
    let st1 := { st with
      FLOW_BY_ID := fset st.FLOW_BY_ID flow.id flow
      FLOW_BY_KEY := fset st.FLOW_BY_KEY (flow_key flow) flow.id }
    let sh := apply_profile_to_response st1.ACTIVE_TRAFFIC_PROFILE j r flow
    let flow2 := sh.flow
    let st2 := { st1 with FLOW_BY_ID := fset st1.FLOW_BY_ID flow2.id flow2 }
    let waiting := should_break st2.BREAKPOINT_RULES flow2 "response".data
    let meta := if waiting then
        some (⟨"response".data, "waiting".data, flow_key flow2⟩ : BpMeta)
      else none
    ⟨st2, waiting, sh.latency, sh.bandwidth,
     [send_flow_event flow2 "response".data meta]⟩

/-! ## General list/string lemmas -/

theorem dropWhile_eq_self_of {p : Char → Bool} :
    ∀ l : Str, (∀ c ∈ l, p c = false) → l.dropWhile p = l := by
  intro l h
  induction l with
  | nil => rfl
  | cons x xs _ =>
      rw [List.dropWhile_cons, h x (by simp)]
      simp

theorem takeWhile_append_of {p : Char → Bool} :
    ∀ xs ys : Str, (∀ x ∈ xs, p x = true) →
      (xs ++ ys).takeWhile p = xs ++ ys.takeWhile p := by
  intro xs ys h
  induction xs with
  | nil => rfl
  | cons x t ih =>
      have hx := h x (by simp)
      have ht := ih (fun a ha => h a (by simp [ha]))
      simp [List.takeWhile_cons, hx, ht]

theorem filter_eq_self_of {p : Char → Bool} :
    ∀ l : Str, (∀ c ∈ l, p c = true) → l.filter p = l := by
  intro l h
  induction l with
  | nil => rfl
  | cons x t ih =>
      rw [List.filter_cons, h x (by simp)]
      simp only [if_true]
      rw [ih (fun a ha => h a (by simp [ha]))]

theorem dropWhile_idem {p : Char → Bool} :
    ∀ l : Str, (l.dropWhile p).dropWhile p = l.dropWhile p := by
  intro l
  induction l with
  | nil => rfl
  | cons x xs ih =>
      by_cases h : p x
      · rw [List.dropWhile_cons, if_pos h, ih]
      · rw [List.dropWhile_cons, if_neg h, List.dropWhile_cons, if_neg h]

theorem dropWhile_prefix_stable {p : Char → Bool} (t w : Str)
    (ht : t.dropWhile p = t) (hw : w <+: t) : w.dropWhile p = w := by
  cases w with
  | nil => rfl
  | cons a as =>
      obtain ⟨rest, hrest⟩ := hw
      cases t with
      | nil => simp at hrest
      | cons b bs =>
          have hab : b = a := by
            have := hrest
            rw [List.cons_append] at this
            exact (List.cons.inj this).1.symm
          subst hab
          have hpb : p b = false := by
            by_contra hp
            have hp' : p b = true := by
              cases hpp : p b with
              | false => exact absurd hpp hp
              | true => rfl
            rw [List.dropWhile_cons, if_pos hp'] at ht
            have : (List.dropWhile p bs).length = bs.length + 1 := by
              rw [ht]; simp
            have hle := (List.dropWhile_sublist (l := bs) p).length_le
            omega
          rw [List.dropWhile_cons, if_neg (by simp [hpb])]

theorem pyStrip_of_no_space (s : Str) (h : ∀ c ∈ s, isPySpace c = false) :
    pyStrip s = s := by
  unfold pyStrip
  rw [dropWhile_eq_self_of s h,
      dropWhile_eq_self_of s.reverse (fun c hc => h c (List.mem_reverse.mp hc)),
      List.reverse_reverse]

theorem pyStrip_idem (s : Str) : pyStrip (pyStrip s) = pyStrip s := by
  unfold pyStrip
  set q := isPySpace with hq
  set t := s.dropWhile q with hT
  have hstable : t.dropWhile q = t := dropWhile_idem s
  set u := (t.reverse.dropWhile q).reverse with hU
  have hu_prefix : u <+: t := by
    have h := List.reverse_prefix.mpr (List.dropWhile_suffix q (l := t.reverse))
    rw [List.reverse_reverse] at h
    exact h
  have h1 : u.dropWhile q = u := dropWhile_prefix_stable t u hstable hu_prefix
  rw [h1]
  have h2 : u.reverse.dropWhile q = u.reverse := by
    rw [hU, List.reverse_reverse]
    exact dropWhile_idem t.reverse
  rw [h2, List.reverse_reverse]

theorem mem_pyStrip {c : Char} {s : Str} (h : c ∈ pyStrip s) : c ∈ s := by
  unfold pyStrip at h
  rw [List.mem_reverse] at h
  have h1 := (List.dropWhile_sublist isPySpace).mem h
  rw [List.mem_reverse] at h1
  exact (List.dropWhile_sublist isPySpace).mem h1

theorem splitFirst_append {c : Char} :
    ∀ xs ys : Str, c ∉ xs → splitFirst c (xs ++ c :: ys) = some (xs, ys) := by
  intro xs ys h
  induction xs with
  | nil => simp [splitFirst]
  | cons x t ih =>
      have hx : ¬ x = c := fun hxc => h (by simp [hxc])
      rw [List.cons_append]
      unfold splitFirst
      rw [if_neg hx, ih (fun hm => h (by simp [hm]))]
      rfl

theorem strContains_of_suffix {needle : Str} :
    ∀ hay : Str, needle <:+ hay → strContains needle hay = true := by
  intro hay h
  induction hay with
  | nil =>
      obtain ⟨w, hw⟩ := h
      rw [List.append_eq_nil] at hw
      simp [strContains, hw.2, List.isEmpty]
  | cons x t ih =>
      rcases List.suffix_cons_iff.mp h with heq | hsuf
      · subst heq
        simp [strContains, List.isPrefixOf_iff_prefix]
      · simp [strContains, ih hsuf]

/-! ## Claim C5: bandwidth delay model -/

/-- **C5** (confirmed).  With an active profile, the computed shaping delay is
`byte_count / (kbps·125)` seconds whenever both the byte count and the rate
limit are positive, and no sleep at all happens when either is non-positive
(a no-op, not an error). -/
theorem C5_bandwidth_delay (p : Profile) (b k : Int)
    (hen : traffic_profile_enabled p = true) :
    (0 < b → 0 < k →
      apply_profile_bandwidth p b k = some ((b : ℚ) / ((k : ℚ) * 125))) ∧
    (b ≤ 0 ∨ k ≤ 0 → apply_profile_bandwidth p b k = none) := by
  unfold apply_profile_bandwidth
  rw [hen]
  constructor
  · intro hb hk
    rw [if_neg (by simp), if_neg (by omega), if_neg (by omega)]
    have hmax : max (k * 125) 1 = k * 125 := by omega
    rw [hmax]
    have hpos : (0 : ℚ) < (b : ℚ) / ((k * 125 : Int) : ℚ) := by
      apply div_pos
      · exact_mod_cast hb
      · exact_mod_cast (by omega : (0 : Int) < k * 125)
    rw [if_neg (by push_cast at hpos ⊢; linarith)]
    push_cast
    ring_nf
  · intro h
    rcases h with hb | hk
    · rw [if_neg (by simp)]
      by_cases hb0 : b = 0
      · rw [if_pos (Or.inl hb0)]
      · rw [if_pos (Or.inr hb)]
    · rw [if_neg (by simp)]
      by_cases hb0 : b = 0 ∨ b ≤ 0
      · rw [if_pos hb0]
      · rw [if_neg hb0]
        by_cases hk0 : k = 0
        · rw [if_pos (Or.inl hk0)]
        · rw [if_pos (Or.inr hk)]

/-- A concrete enabled profile used by witnesses: 8 kbps downlink. -/
def profileTest : Profile :=
  { TRAFFIC_PROFILE_DEFAULT with id := "p1".data, downstream_kbps := 8, upstream_kbps := 8 }

/-- Witness for C5: at 8 kbps and a 1000-byte body the delay is
`1000/(8·125) = 1.0` second exactly, and a zero byte count sleeps nothing. -/
theorem C5_bandwidth_delay_witness :
    apply_profile_bandwidth profileTest 1000 8 = some ((1000 : ℚ) / ((8 : ℚ) * 125)) ∧
    ((1000 : ℚ) / ((8 : ℚ) * 125)) = 1 ∧
    apply_profile_bandwidth profileTest 0 8 = none := by
  refine ⟨(C5_bandwidth_delay profileTest 1000 8 (by decide)).1 (by norm_num) (by norm_num),
          by norm_num,
          (C5_bandwidth_delay profileTest 0 8 (by decide)).2 (Or.inl le_rfl)⟩

/-! ## Claim C9: traffic_profile with absent/non-dict payload resets -/

/-- **C9** (confirmed).  A `traffic_profile` command whose payload is absent or
not a JSON object (modelled by `none`) resets the active profile to the
disabled sentinel — id `traffic.off`, every numeric field `0` — and touches
nothing else: no registry entry, rule table or event output changes. -/
theorem C9_traffic_profile_reset (st : St) :
    handle_command st (.traffic_profile none) =
      ⟨{ st with ACTIVE_TRAFFIC_PROFILE := TRAFFIC_PROFILE_DEFAULT }, [], []⟩ ∧
    TRAFFIC_PROFILE_DEFAULT.id = "traffic.off".data ∧
    TRAFFIC_PROFILE_DEFAULT.latency_ms = 0 ∧
    TRAFFIC_PROFILE_DEFAULT.jitter_ms = 0 ∧
    TRAFFIC_PROFILE_DEFAULT.downstream_kbps = 0 ∧
    TRAFFIC_PROFILE_DEFAULT.upstream_kbps = 0 ∧
    TRAFFIC_PROFILE_DEFAULT.packet_loss = 0 ∧
    (handle_command st (.traffic_profile none)).st.ACTIVE_TRAFFIC_PROFILE.id =
      TRAFFIC_PROFILE_DEFAULT.id := by
  exact ⟨rfl, rfl, rfl, rfl, rfl, rfl, rfl, rfl⟩

/-! ## Claim C2: map-local application -/

theorem dictSet_of_absent (hs : List (Str × Str)) (k v : Str)
    (h : hs.any (fun p => p.1 == k) = false) :
    dictSet hs k v = hs ++ [(k, v)] := by
  unfold dictSet
  rw [h]
  simp

/-- **C2** (confirmed).  A request whose key has a stored override rule gets a
synthesized response carrying the rule's status (`.get` default 200), the
rule's headers plus an injected `Content-Type: application/json` when none of
the rule's header names is `content-type` case-insensitively, plus the
`X-Map-Local: true` marker; and the synthesized response is a function of the
rule alone, so any two requests with the same key receive identical status,
body and headers. -/
theorem C2_map_local (st : St) (j : ℚ) (flow : Flow) (rule : Rule)
    (hloop : is_loopback_host flow.request.host = false)
    (hrule : st.MAP_LOCAL_RULES (flow_key flow) = some rule) :
    (request_hook st j flow).st.FLOW_BY_ID flow.id =
      some (apply_map_local_response flow rule) ∧
    (apply_map_local_response flow rule).response =
      some (responseMake (rule.status.getD 200) (textBytes (rule.body.getD []))
        (dictSet
          (if !((rule.headers.getD []).any
                (fun h => pyLower h.1 == "content-type".data)) then
            (rule.headers.getD []) ++
              [("Content-Type".data, "application/json".data)]
          else rule.headers.getD [])
          "X-Map-Local".data "true".data)) ∧
    (∀ f1 f2 : Flow,
      (apply_map_local_response f1 rule).response =
        (apply_map_local_response f2 rule).response) := by
  refine ⟨?_, ?_, fun f1 f2 => rfl⟩
  · simp [request_hook, hloop, hrule, fset, apply_map_local_response]
  · cases hb : (rule.headers.getD []).any
        (fun h => pyLower h.1 == "content-type".data) with
    | true => simp [apply_map_local_response, mapLocalHeaders, hb]
    | false =>
        have habs : (rule.headers.getD []).any
            (fun p => p.1 == "Content-Type".data) = false := by
          cases hx : (rule.headers.getD []).any
              (fun p => p.1 == "Content-Type".data) with
          | false => rfl
          | true =>
              obtain ⟨p, hp, hpk⟩ := List.any_eq_true.mp hx
              have hpk' : p.1 = "Content-Type".data := eq_of_beq hpk
              have hcontra : (rule.headers.getD []).any
                  (fun h => pyLower h.1 == "content-type".data) = true := by
                refine List.any_eq_true.mpr ⟨p, hp, ?_⟩
                rw [hpk']
                decide
              rw [hb] at hcontra
              exact absurd hcontra (by simp)
        simp [apply_map_local_response, mapLocalHeaders, hb,
              dictSet_of_absent _ _ _ habs]

/-- Empty registry state used by witnesses. -/
def stEmpty : St :=
  { FLOW_BY_ID := fun _ => none
    FLOW_BY_KEY := fun _ => none
    MAP_LOCAL_RULES := fun _ => none
    BREAKPOINT_RULES := fun _ => none
    ACTIVE_TRAFFIC_PROFILE := TRAFFIC_PROFILE_DEFAULT }

/-- A concrete request/flow used by witnesses (key `example.com/p`). -/
def flowTest : Flow :=
  { id := "f1".data
    request :=
      { method := "GET".data, host := "example.com".data, path := "/p".data
        headers := [], body := [] }
    response := none }

/-- A concrete override rule used by witnesses. -/
def ruleTest : Rule :=
  { body := some "ok".data, headers := some [], status := some 201 }

/-- A registry state holding `ruleTest` under `flowTest`'s key. -/
def stRule : St :=
  { stEmpty with
      MAP_LOCAL_RULES := fset stEmpty.MAP_LOCAL_RULES (flow_key flowTest) ruleTest }

/-- Witness for C2 at a concrete state, flow and rule. -/
theorem C2_map_local_witness :
    (request_hook stRule 0 flowTest).st.FLOW_BY_ID flowTest.id =
      some (apply_map_local_response flowTest ruleTest) ∧
    (apply_map_local_response flowTest ruleTest).response =
      some (responseMake 201 (textBytes "ok".data)
        [("Content-Type".data, "application/json".data),
         ("X-Map-Local".data, "true".data)]) := by
  have h := C2_map_local stRule 0 flowTest ruleTest (by decide) (by decide)
  exact ⟨h.1, by rw [h.2.1]; decide⟩

/-! ## Claim C4: request-edit application (corrected) -/

/-- A concrete request with one header, used by the C4 counterexample. -/
def reqHdr : Request :=
  { method := "GET".data, host := "example.com".data, path := "/a".data
    headers := [("X-A".data, "1".data)], body := [] }

/-- **C4 counterexample.**  The claim says an edit payload that omits headers
leaves the request's existing headers unchanged; but `apply_request_updates`
calls `flow.request.headers.clear()` unconditionally, so a truthy payload
with no `headers` key wipes the header set: here a request with header
`X-A: 1` ends with no headers at all. -/
theorem C4_counterexample :
    (apply_request_updates reqHdr (some ⟨none, none, none, none⟩)).headers = [] ∧
    reqHdr.headers = [("X-A".data, "1".data)] := by
  exact ⟨rfl, rfl⟩

/-- **C4 amended** (proved).  For every truthy edit payload: the method is
upper-cased if present (and non-empty), the URL replaces the request target
if present, the body always becomes the payload's body (absent body clears
it), and the headers are *always* replaced by the payload's headers — empty
when the payload omits them (the original header set is discarded
unconditionally, as the final clause shows: the resulting headers do not
depend on the edited request at all). -/
theorem C4_request_updates (req : Request) (pl : ReqPayload) :
    (apply_request_updates req (some pl)).method =
      (match pl.method with
       | some m => if m ≠ [] then pyUpper m else req.method
       | none => req.method) ∧
    (apply_request_updates req (some pl)).host =
      (match pl.url with
       | some u => u.1
       | none => req.host) ∧
    (apply_request_updates req (some pl)).path =
      (match pl.url with
       | some u => u.2
       | none => req.path) ∧
    (apply_request_updates req (some pl)).body = pl.body.getD [] ∧
    (apply_request_updates req (some pl)).headers = pl.headers.getD [] ∧
    (∀ req2 : Request,
      (apply_request_updates req (some pl)).headers =
        (apply_request_updates req2 (some pl)).headers) := by
  refine ⟨?_, ?_, ?_, ?_, ?_, ?_⟩
  · cases hm : pl.method with
    | none => cases hu : pl.url <;> simp [apply_request_updates, hm, hu]
    | some m =>
        cases hu : pl.url <;> by_cases hme : m = [] <;>
          simp [apply_request_updates, hm, hu, hme]
  · cases hm : pl.method with
    | none => cases hu : pl.url <;> simp [apply_request_updates, hm, hu]
    | some m =>
        cases hu : pl.url <;> by_cases hme : m = [] <;>
          simp [apply_request_updates, hm, hu, hme]
  · cases hm : pl.method with
    | none => cases hu : pl.url <;> simp [apply_request_updates, hm, hu]
    | some m =>
        cases hu : pl.url <;> by_cases hme : m = [] <;>
          simp [apply_request_updates, hm, hu, hme]
  · cases hm : pl.method with
    | none => cases hu : pl.url <;> simp [apply_request_updates, hm, hu]
    | some m =>
        cases hu : pl.url <;> by_cases hme : m = [] <;>
          simp [apply_request_updates, hm, hu, hme]
  · cases hm : pl.method with
    | none => cases hu : pl.url <;> simp [apply_request_updates, hm, hu]
    | some m =>
        cases hu : pl.url <;> by_cases hme : m = [] <;>
          simp [apply_request_updates, hm, hu, hme]
  · intro req2
    cases hm : pl.method with
    | none => cases hu : pl.url <;> simp [apply_request_updates, hm, hu]
    | some m =>
        cases hu : pl.url <;> by_cases hme : m = [] <;>
          simp [apply_request_updates, hm, hu, hme]

/-! ## Claim C7: fail-open release -/

/-- **C7** (confirmed).  A `breakpoint_continue` whose id names a registered
exchange but whose phase is neither `request` nor `response` lifts the
suspension (`flow.resume()` is called) with no edits and changes no state and
emits no event; one whose id names no registered exchange is a complete
no-op. -/
theorem C7_fail_open (st : St) (fid : Str) (phase : Option Str)
    (reqP : Option ReqPayload) (respP : Option RespPayload) :
    (st.FLOW_BY_ID fid = none →
      handle_command st (.breakpoint_continue fid phase reqP respP) =
        ⟨st, [], []⟩) ∧
    (∀ flow, st.FLOW_BY_ID fid = some flow →
      phase ≠ some "request".data → phase ≠ some "response".data →
      handle_command st (.breakpoint_continue fid phase reqP respP) =
        ⟨st, [], [flow.id]⟩) := by
  constructor
  · intro h
    simp only [handle_command, h]
  · intro flow h h1 h2
    simp only [handle_command, h, if_neg h1, if_neg h2]

/-- A registry state holding `flowTest` under id `f1`. -/
def stFlow : St :=
  { stEmpty with
      FLOW_BY_ID := fset stEmpty.FLOW_BY_ID "f1".data flowTest
      FLOW_BY_KEY := fset stEmpty.FLOW_BY_KEY (flow_key flowTest) "f1".data }

/-- Witness for C7: an unknown id is a no-op; a known id with unknown phase
`banana` resumes `f1` and changes nothing. -/
theorem C7_fail_open_witness :
    handle_command stFlow (.breakpoint_continue "zz".data (some "banana".data) none none) =
      ⟨stFlow, [], []⟩ ∧
    handle_command stFlow (.breakpoint_continue "f1".data (some "banana".data) none none) =
      ⟨stFlow, [], ["f1".data]⟩ := by
  constructor
  · exact (C7_fail_open stFlow "zz".data (some "banana".data) none none).1 (by decide)
  · exact (C7_fail_open stFlow "f1".data (some "banana".data) none none).2
      flowTest (by decide) (by decide) (by decide)

/-! ## Claim C10: mock_response fallbacks -/

/-- **C10** (confirmed).  A `mock_response` command with absent or empty
headers stores, in the created rule, the named exchange's current response
headers (empty when it has no response); with absent status it stores that
response's status (200 when none); and the rule is immediately applied to
that exchange, even when the exchange has no response yet. -/
theorem C10_mock_response (st : St) (fid : Str) (body : Option Str)
    (headers : Option (List (Str × Str))) (flow : Flow)
    (hfl : st.FLOW_BY_ID fid = some flow)
    (hh : headers = none ∨ headers = some []) :
    (handle_command st (.mock_response fid body none headers)).st.MAP_LOCAL_RULES
        (flow_key flow) =
      some { body := some (body.getD [])
             headers := some (match flow.response with
               | some r => r.headers
               | none => [])
             status := some (match flow.response with
               | some r => r.status_code
               | none => 200) } ∧
    (handle_command st (.mock_response fid body none headers)).st.FLOW_BY_ID
        flow.id =
      some (apply_map_local_response flow
        { body := some (body.getD [])
          headers := some (match flow.response with
            | some r => r.headers
            | none => [])
          status := some (match flow.response with
            | some r => r.status_code
            | none => 200) }) ∧
    (apply_map_local_response flow
        { body := some (body.getD [])
          headers := some (match flow.response with
            | some r => r.headers
            | none => [])
          status := some (match flow.response with
            | some r => r.status_code
            | none => 200) }).response.isSome = true := by
  have hhv : headers.getD [] = [] := by
    rcases hh with h | h <;> simp [h]
  refine ⟨?_, ?_, ?_⟩
  · simp only [handle_command, hfl, hhv]
    simp [fset, apply_map_local_response]
  · simp only [handle_command, hfl, hhv]
    simp [fset, apply_map_local_response]
  · simp [apply_map_local_response]

/-- A flow holding a response, used by witnesses. -/
def flowResp : Flow :=
  { flowTest with
      id := "f2".data
      response := some { status_code := 503
                         headers := [("X-R".data, "1".data)]
                         content := textBytes "orig".data } }

/-- A registry state holding `flowResp` (which has a response) and `flowTest`
(which has none). -/
def stTwo : St :=
  { stEmpty with
      FLOW_BY_ID := fset (fset stEmpty.FLOW_BY_ID "f1".data flowTest)
        "f2".data flowResp }

/-- Witness for C10 at both a response-bearing and a response-less exchange. -/
theorem C10_mock_response_witness :
    (handle_command stTwo (.mock_response "f2".data (some "b".data) none none)).st.MAP_LOCAL_RULES
        (flow_key flowResp) =
      some { body := some "b".data
             headers := some [("X-R".data, "1".data)]
             status := some 503 } ∧
    (handle_command stTwo (.mock_response "f1".data (some "b".data) none (some []))).st.MAP_LOCAL_RULES
        (flow_key flowTest) =
      some { body := some "b".data, headers := some [], status := some 200 } ∧
    (handle_command stTwo (.mock_response "f1".data (some "b".data) none (some []))).st.FLOW_BY_ID
        flowTest.id =
      some (apply_map_local_response flowTest
        { body := some "b".data, headers := some [], status := some 200 }) := by
  have h2 := C10_mock_response stTwo "f2".data (some "b".data) none flowResp
    (by decide) (Or.inl rfl)
  have h1 := C10_mock_response stTwo "f1".data (some "b".data) (some []) flowTest
    (by decide) (Or.inr rfl)
  exact ⟨h2.1, h1.1, h1.2.1⟩

/-! ## Claim C6: rekeying at a request breakpoint -/

/-- **C6** (confirmed).  Releasing a request breakpoint whose edit changes the
flow's key removes the old key from the by-key index, points the new key at
the exchange, keeps the by-id entry for the exchange's id present and mapping
to that same exchange (same id, now carrying the edited request — in the
source the entry is literally the same mutated object), and touches no other
by-key or by-id entry, no rule table and not the profile. -/
theorem C6_rekey (st : St) (fid : Str) (reqP : Option ReqPayload)
    (respP : Option RespPayload) (flow : Flow)
    (hfl : st.FLOW_BY_ID fid = some flow)
    (hkey : flow_key { flow with request := apply_request_updates flow.request reqP } ≠
      flow_key flow) :
    (handle_command st (.breakpoint_continue fid (some "request".data) reqP respP)).st.FLOW_BY_KEY
        (flow_key flow) = none ∧
    (handle_command st (.breakpoint_continue fid (some "request".data) reqP respP)).st.FLOW_BY_KEY
        (flow_key { flow with request := apply_request_updates flow.request reqP }) =
      some flow.id ∧
    (handle_command st (.breakpoint_continue fid (some "request".data) reqP respP)).st.FLOW_BY_ID
        flow.id =
      some { flow with request := apply_request_updates flow.request reqP } ∧
    ({ flow with request := apply_request_updates flow.request reqP } : Flow).id =
      flow.id ∧
    (∀ k, k ≠ flow_key flow →
      k ≠ flow_key { flow with request := apply_request_updates flow.request reqP } →
      (handle_command st (.breakpoint_continue fid (some "request".data) reqP respP)).st.FLOW_BY_KEY
          k = st.FLOW_BY_KEY k) ∧
    (∀ i, i ≠ flow.id →
      (handle_command st (.breakpoint_continue fid (some "request".data) reqP respP)).st.FLOW_BY_ID
          i = st.FLOW_BY_ID i) ∧
    (handle_command st (.breakpoint_continue fid (some "request".data) reqP respP)).st.MAP_LOCAL_RULES =
      st.MAP_LOCAL_RULES ∧
    (handle_command st (.breakpoint_continue fid (some "request".data) reqP respP)).st.BREAKPOINT_RULES =
      st.BREAKPOINT_RULES ∧
    (handle_command st (.breakpoint_continue fid (some "request".data) reqP respP)).st.ACTIVE_TRAFFIC_PROFILE =
      st.ACTIVE_TRAFFIC_PROFILE := by
  have hne : flow_key flow ≠
      flow_key { flow with request := apply_request_updates flow.request reqP } :=
    fun h => hkey h.symm
  refine ⟨?_, ?_, ?_, rfl, ?_, ?_, ?_, ?_, ?_⟩
  · simp only [handle_command, hfl, if_pos rfl]
    simp [fset, ferase, if_neg hne, if_pos rfl, hkey]
  · simp only [handle_command, hfl, if_pos rfl]
    simp [fset, if_pos rfl]
  · simp only [handle_command, hfl, if_pos rfl]
    simp [fset]
  · intro k hk1 hk2
    simp only [handle_command, hfl, if_pos rfl]
    simp [fset, ferase, if_neg hne, if_neg hk1, if_neg hk2]
  · intro i hi
    simp only [handle_command, hfl, if_pos rfl]
    simp [fset, if_neg hi]
  · simp [handle_command, hfl]
  · simp [handle_command, hfl]
  · simp [handle_command, hfl]

/-- A request edit moving `flowTest` to host `other.com` (key changes). -/
def reqEditMove : ReqPayload :=
  { method := none, url := some ("other.com".data, "/p".data)
    body := none, headers := none }

/-- Witness for C6 at a concrete state/flow/edit. -/
theorem C6_rekey_witness :
    (handle_command stFlow
        (.breakpoint_continue "f1".data (some "request".data) (some reqEditMove) none)).st.FLOW_BY_KEY
        (flow_key flowTest) = none ∧
    (handle_command stFlow
        (.breakpoint_continue "f1".data (some "request".data) (some reqEditMove) none)).st.FLOW_BY_KEY
        (flow_key { flowTest with
          request := apply_request_updates flowTest.request (some reqEditMove) }) =
      some flowTest.id ∧
    (handle_command stFlow
        (.breakpoint_continue "f1".data (some "request".data) (some reqEditMove) none)).st.FLOW_BY_ID
        flowTest.id =
      some { flowTest with
        request := apply_request_updates flowTest.request (some reqEditMove) } := by
  have h := C6_rekey stFlow "f1".data (some reqEditMove) none flowTest
    (by decide) (by decide)
  exact ⟨h.1, h.2.1, h.2.2.1⟩

/-! ## Claim C3: inbound shaping under packet loss (corrected) -/

/-- Length of a flow's response body, as read by the downlink bandwidth
step. -/
def respLen (flow : Flow) : Nat :=
  match flow.response with
  | some r => r.content.length
  | none => 0

/-- An enabled profile with certain packet loss, used by the C3
counterexample. -/
def profileLoss : Profile :=
  { TRAFFIC_PROFILE_DEFAULT with
      id := "p2".data, downstream_kbps := 8, packet_loss := 1 }

/-- **C3 counterexample.**  The claim says that when the packet-loss draw
fires, *no profile-id tag header is added* to the synthetic 598 response.
But the source calls `tag_response_with_profile` before the `if packet_loss:
return`, so the 598 response does carry `X-FRTraffic-Profile`: at a profile
with `packet_loss = 1` and draw `r = 0 ≤ 1`, the resulting response is
the 598 body *with* the tag header appended. -/
theorem C3_counterexample :
    (apply_profile_to_response profileLoss 0 0 flowResp).flow.response =
      some { status_code := 598
             headers := [("Content-Type".data, "text/plain".data),
                         ("X-FRTraffic-Profile".data, "p2".data)]
             content := textBytes "Simulated packet loss (traffic profile)".data } ∧
    profileLoss.packet_loss = 1 ∧ (0 : ℚ) ≤ profileLoss.packet_loss := by
  refine ⟨?_, rfl, by norm_num [profileLoss, TRAFFIC_PROFILE_DEFAULT]⟩
  decide

/-- **C3 amended** (proved).  Under an active profile: when the packet-loss
draw fires (`packet_loss > 0` and the draw `r ≤ packet_loss`), the response
is replaced by the synthetic 598 response with the fixed plaintext body,
which additionally carries the `X-FRTraffic-Profile` tag header (the tag step
runs before the early return), and no downstream bandwidth delay occurs;
when the draw does not fire, the response is only tagged and the total
bandwidth sleep equals `responseBodyBytes/(downstreamKbps·125)` seconds when
`downstreamKbps > 0` and `0` otherwise. -/
theorem C3_packet_loss (p : Profile) (j r : ℚ) (flow : Flow)
    (hen : traffic_profile_enabled p = true) :
    (0 < p.packet_loss → r ≤ p.packet_loss →
      (apply_profile_to_response p j r flow).flow.response =
        some { status_code := 598
               headers := [("Content-Type".data, "text/plain".data)].filter
                   (fun q => pyLower q.1 ≠ pyLower "X-FRTraffic-Profile".data) ++
                 [("X-FRTraffic-Profile".data, p.id)]
               content := textBytes "Simulated packet loss (traffic profile)".data } ∧
      (apply_profile_to_response p j r flow).bandwidth = none) ∧
    (¬(0 < p.packet_loss ∧ r ≤ p.packet_loss) →
      (apply_profile_to_response p j r flow).flow =
        tag_response_with_profile p flow ∧
      ((apply_profile_to_response p j r flow).bandwidth.getD 0 =
        if 0 < p.downstream_kbps then
          (respLen flow : ℚ) / ((p.downstream_kbps : ℚ) * 125)
        else 0)) := by
  constructor
  · intro hloss hr
    have hinj : maybe_inject_packet_loss p r flow =
        ({ flow with
            response := some (responseMake 598
              (textBytes "Simulated packet loss (traffic profile)".data)
              [("Content-Type".data, "text/plain".data)]) }, true) := by
      unfold maybe_inject_packet_loss
      rw [hen]
      rw [if_neg (by simp), if_neg (by exact not_le.mpr hloss), if_neg (not_lt.mpr hr)]
    constructor
    · simp only [apply_profile_to_response, hen, Bool.not_true,
        Bool.false_eq_true, if_false, hinj]
      simp [tag_response_with_profile, hen, headersSet, responseMake]
    · simp only [apply_profile_to_response, hen, Bool.not_true,
        Bool.false_eq_true, if_false, hinj]
      simp
  · intro hnofire
    have hinj : maybe_inject_packet_loss p r flow = (flow, false) := by
      unfold maybe_inject_packet_loss
      rw [hen]
      simp only [Bool.not_true, Bool.false_eq_true, if_false]
      by_cases hl : p.packet_loss ≤ 0
      · rw [if_pos hl]
      · rw [if_neg hl]
        have hr : r > p.packet_loss := by
          by_contra hc
          exact hnofire ⟨lt_of_not_le hl, le_of_not_lt hc⟩
        rw [if_pos hr]
    have htag : respLen (tag_response_with_profile p flow) = respLen flow := by
      unfold tag_response_with_profile
      rw [hen]
      simp only [Bool.not_true, Bool.false_eq_true, if_false]
      cases hresp : flow.response with
      | none => rfl
      | some resp => simp [respLen, hresp]
    constructor
    · simp only [apply_profile_to_response, hen, Bool.not_true,
        Bool.false_eq_true, if_false, hinj]
    · simp only [apply_profile_to_response, hen, Bool.not_true,
        Bool.false_eq_true, if_false, hinj]
      have hbody : ∀ f : Flow,
          (match f.response with
            | some resp => resp.content
            | none => ([] : List Nat)).length = respLen f := by
        intro f
        unfold respLen
        cases f.response <;> simp
      rw [hbody (tag_response_with_profile p flow), htag]
      by_cases hk : 0 < p.downstream_kbps
      · rw [if_pos hk]
        by_cases hz : respLen flow = 0
        · rw [hz]
          have : apply_profile_bandwidth p ((0 : Nat) : Int) p.downstream_kbps = none := by
            exact (C5_bandwidth_delay p 0 p.downstream_kbps hen).2 (Or.inl le_rfl)
          simp only [Nat.cast_zero] at this ⊢
          rw [this]
          simp
        · have hpos : (0 : Int) < (respLen flow : Int) := by
            exact_mod_cast Nat.pos_of_ne_zero hz
          have := (C5_bandwidth_delay p (respLen flow) p.downstream_kbps hen).1 hpos hk
          rw [this]
          simp
      · rw [if_neg hk]
        have := (C5_bandwidth_delay p (respLen flow) p.downstream_kbps hen).2
          (Or.inr (not_lt.mp hk))
        rw [this]
        rfl

/-- Witness for C3 at concrete firing and non-firing draws. -/
theorem C3_packet_loss_witness :
    ((apply_profile_to_response profileLoss 0 0 flowResp).flow.response =
      some { status_code := 598
             headers := [("Content-Type".data, "text/plain".data)].filter
                 (fun q => pyLower q.1 ≠ pyLower "X-FRTraffic-Profile".data) ++
               [("X-FRTraffic-Profile".data, profileLoss.id)]
             content := textBytes "Simulated packet loss (traffic profile)".data } ∧
     (apply_profile_to_response profileLoss 0 0 flowResp).bandwidth = none) ∧
    ((apply_profile_to_response profileLoss 0 2 flowResp).flow =
      tag_response_with_profile profileLoss flowResp ∧
     ((apply_profile_to_response profileLoss 0 2 flowResp).bandwidth.getD 0 =
       if 0 < profileLoss.downstream_kbps then
         (respLen flowResp : ℚ) / ((profileLoss.downstream_kbps : ℚ) * 125)
       else 0)) := by
  constructor
  · exact (C3_packet_loss profileLoss 0 0 flowResp (by decide)).1
      (by norm_num [profileLoss, TRAFFIC_PROFILE_DEFAULT])
      (by norm_num [profileLoss, TRAFFIC_PROFILE_DEFAULT])
  · exact (C3_packet_loss profileLoss 0 2 flowResp (by decide)).2
      (by norm_num [profileLoss, TRAFFIC_PROFILE_DEFAULT])

/-! ## Claim C8: loopback exemption -/

/-- Decimal rendering of a natural number (used only to state the claim's
`127.0.0.0-127.255.255.255` address range). -/
def natToDec (n : Nat) : Str :=
  if h : n < 10 then [Char.ofNat (48 + n)]
  else natToDec (n / 10) ++ [Char.ofNat (48 + n % 10)]
decreasing_by exact Nat.div_lt_self (by omega) (by omega)

theorem natToDec_small (n : Nat) (h : n < 10) :
    natToDec n = [Char.ofNat (48 + n)] := by
  rw [natToDec]
  exact dif_pos h

theorem digit_char_props : ∀ d : Nat, d < 10 →
    pyCharLower (Char.ofNat (48 + d)) = Char.ofNat (48 + d) ∧
    isPySpace (Char.ofNat (48 + d)) = false := by decide

theorem natToDec_chars (n : Nat) :
    ∀ c ∈ natToDec n, pyCharLower c = c ∧ isPySpace c = false := by
  induction n using Nat.strong_induction_on with
  | _ n ih =>
      intro c hc
      by_cases h : n < 10
      · rw [natToDec, dif_pos h] at hc
        simp only [List.mem_singleton] at hc
        subst hc
        exact digit_char_props n h
      · rw [natToDec, dif_neg h] at hc
        rcases List.mem_append.mp hc with h1 | h2
        · exact ih (n / 10) (Nat.div_lt_self (by omega) (by omega)) c h1
        · simp only [List.mem_singleton] at h2
          subst h2
          exact digit_char_props (n % 10) (Nat.mod_lt n (by omega))

/-- On a string whose characters are untouched by `lower` and are not
whitespace, `strip().lower()` is the identity. -/
theorem pyLower_pyStrip_eq_self (s : Str)
    (h : ∀ c ∈ s, pyCharLower c = c ∧ isPySpace c = false) :
    pyLower (pyStrip s) = s := by
  have hs : pyStrip s = s :=
    pyStrip_of_no_space s (fun c hc => (h c hc).2)
  rw [hs]
  unfold pyLower
  induction s with
  | nil => rfl
  | cons x t ih =>
      rw [List.map_cons, (h x (by simp)).1,
        ih (fun c hc => h c (by simp [hc])) (pyStrip_of_no_space t
          (fun c hc => (h c (by simp [hc])).2))]

/-- Any non-empty host made of lower-stable, non-whitespace characters that
starts with `127.` passes `is_loopback_host`. -/
theorem is_loopback_of_127 (s : Str)
    (hchars : ∀ ch ∈ s, pyCharLower ch = ch ∧ isPySpace ch = false)
    (hpre : "127.".data <+: s) :
    is_loopback_host s = true := by
  obtain ⟨t, ht⟩ := hpre
  have hs : s = '1' :: '2' :: '7' :: '.' :: t := by rw [← ht]; rfl
  unfold is_loopback_host
  rw [if_neg (by rw [hs]; simp)]
  rw [pyLower_pyStrip_eq_self s hchars]
  rw [if_neg (by rw [hs]; refine not_or.mpr ⟨?_, not_or.mpr ⟨?_, ?_⟩⟩ <;> simp)]
  rw [if_pos (by
    rw [hs]
    exact List.isPrefixOf_iff_prefix.mpr ⟨t, rfl⟩)]

/-- A dotted-quad loopback literal `127.a.b.c` passes `is_loopback_host`. -/
theorem is_loopback_host_dotted (a b c : Nat) :
    is_loopback_host
      ("127.".data ++ natToDec a ++ ".".data ++ natToDec b ++ ".".data ++
        natToDec c) = true := by
  have hfixed : ∀ ch ∈ "127.".data, pyCharLower ch = ch ∧ isPySpace ch = false := by
    decide
  have hdot : ∀ ch ∈ ".".data, pyCharLower ch = ch ∧ isPySpace ch = false := by
    decide
  apply is_loopback_of_127
  · intro ch hch
    simp only [List.append_assoc, List.mem_append] at hch
    rcases hch with h1 | h2 | h3 | h4 | h5 | h6
    · exact hfixed ch h1
    · exact natToDec_chars a ch h2
    · exact hdot ch h3
    · exact natToDec_chars b ch h4
    · exact hdot ch h5
    · exact natToDec_chars c ch h6
  · have hassoc :
        "127.".data ++ natToDec a ++ ".".data ++ natToDec b ++ ".".data ++
          natToDec c =
        "127.".data ++ (natToDec a ++ (".".data ++ (natToDec b ++
          (".".data ++ natToDec c)))) := by
      simp [List.append_assoc]
    rw [hassoc]
    exact List.prefix_append _ _

/-- **C8** (confirmed).  For a request whose host is `localhost`, `0.0.0.0`,
`::1` (bracketed included) or any dotted-quad `127.a.b.c` with octets
`≤ 255`, both hooks return immediately: state untouched, no interception, no
shaping sleep, no map-local override, no event. -/
theorem C8_loopback (st : St) (j r : ℚ) (flow : Flow)
    (h : flow.request.host = "localhost".data ∨
         flow.request.host = "0.0.0.0".data ∨
         flow.request.host = "::1".data ∨
         flow.request.host = "[::1]".data ∨
         ∃ a b c : Nat, a ≤ 255 ∧ b ≤ 255 ∧ c ≤ 255 ∧
           flow.request.host =
             "127.".data ++ natToDec a ++ ".".data ++ natToDec b ++
               ".".data ++ natToDec c) :
    request_hook st j flow = ⟨st, false, none, none, []⟩ ∧
    response_hook st j r flow = ⟨st, false, none, none, []⟩ := by
  have hloop : is_loopback_host flow.request.host = true := by
    rcases h with h | h | h | h | ⟨a, b, c, _, _, _, h⟩ <;> rw [h]
    · decide
    · decide
    · decide
    · decide
    · exact is_loopback_host_dotted a b c
  constructor
  · unfold request_hook
    rw [if_pos hloop]
  · unfold response_hook
    rw [if_pos hloop]

/-- A flow aimed at `127.0.0.1`, for the C8 witness. -/
def flowLoop : Flow :=
  { flowTest with
      id := "f3".data
      request := { flowTest.request with host := "127.0.0.1".data } }

/-- Witness for C8 at the concrete host `127.0.0.1` (octets `0.0.1`). -/
theorem C8_loopback_witness :
    request_hook stFlow 0 flowLoop = ⟨stFlow, false, none, none, []⟩ ∧
    response_hook stFlow 0 0 flowLoop = ⟨stFlow, false, none, none, []⟩ := by
  exact C8_loopback stFlow 0 0 flowLoop
    (Or.inr (Or.inr (Or.inr (Or.inr ⟨0, 0, 1, by omega, by omega, by omega,
      by rw [natToDec_small 0 (by omega), natToDec_small 1 (by omega)]; decide⟩))))

/-! ## Claim C1: codec round-trip -/

theorem decB64_encB64 : ∀ n, n < 64 → decB64 (encB64 n) = n := by decide

theorem encB64_props : ∀ n, n < 64 →
    isB64Char (encB64 n) = true ∧ encB64 n ≠ '=' ∧ encB64 n ≠ ',' := by decide

/-- Shape of a base64 encoding: alphabet characters followed by padding, with
a padded length that is a multiple of four, and `decodeQuads` inverts the
data characters. -/
theorem encodeChunks_spec :
    ∀ data : List Nat, (∀ x ∈ data, x < 256) →
      ∃ (d : Str) (p : Nat),
        encodeChunks data = d ++ List.replicate p '=' ∧
        (∀ ch ∈ d, isB64Char ch = true ∧ ch ≠ '=' ∧ ch ≠ ',') ∧
        (d.length + p) % 4 = 0 ∧ d.length % 4 ≠ 1 ∧
        decodeQuads d = data
  | [], _ => ⟨[], 0, rfl, by simp, by decide, by decide, rfl⟩
  | [a], hb => by
      have ha : a < 256 := hb a (by simp)
      refine ⟨[encB64 (a / 4), encB64 (a % 4 * 16)], 2, rfl, ?_, by simp,
        by simp, ?_⟩
      · intro ch hch
        simp only [List.mem_cons, List.not_mem_nil, or_false] at hch
        rcases hch with rfl | rfl
        · exact encB64_props (a / 4) (by omega)
        · exact encB64_props (a % 4 * 16) (by omega)
      · show [decB64 (encB64 (a / 4)) * 4 + decB64 (encB64 (a % 4 * 16)) / 16] = [a]
        rw [decB64_encB64 (a / 4) (by omega), decB64_encB64 (a % 4 * 16) (by omega)]
        congr 1
        omega
  | [a, b], hb => by
      have ha : a < 256 := hb a (by simp)
      have hb' : b < 256 := hb b (by simp)
      refine ⟨[encB64 (a / 4), encB64 (a % 4 * 16 + b / 16), encB64 (b % 16 * 4)],
        1, rfl, ?_, by simp, by simp, ?_⟩
      · intro ch hch
        simp only [List.mem_cons, List.not_mem_nil, or_false] at hch
        rcases hch with rfl | rfl | rfl
        · exact encB64_props (a / 4) (by omega)
        · exact encB64_props (a % 4 * 16 + b / 16) (by omega)
        · exact encB64_props (b % 16 * 4) (by omega)
      · show [decB64 (encB64 (a / 4)) * 4 + decB64 (encB64 (a % 4 * 16 + b / 16)) / 16,
            decB64 (encB64 (a % 4 * 16 + b / 16)) % 16 * 16 +
              decB64 (encB64 (b % 16 * 4)) / 4] = [a, b]
        rw [decB64_encB64 (a / 4) (by omega),
            decB64_encB64 (a % 4 * 16 + b / 16) (by omega),
            decB64_encB64 (b % 16 * 4) (by omega)]
        congr 1
        · omega
        · congr 1
          omega
  | a :: b :: c :: rest, hb => by
      have ha : a < 256 := hb a (by simp)
      have hb' : b < 256 := hb b (by simp)
      have hc : c < 256 := hb c (by simp)
      obtain ⟨d, p, h1, h2, h3, h4, h5⟩ :=
        encodeChunks_spec rest (fun x hx => hb x (by simp [hx]))
      refine ⟨encB64 (a / 4) :: encB64 (a % 4 * 16 + b / 16) ::
          encB64 (b % 16 * 4 + c / 64) :: encB64 (c % 64) :: d, p, ?_, ?_, ?_, ?_, ?_⟩
      · show encB64 (a / 4) :: encB64 (a % 4 * 16 + b / 16) ::
            encB64 (b % 16 * 4 + c / 64) :: encB64 (c % 64) :: encodeChunks rest = _
        rw [h1]
        rfl
      · intro ch hch
        simp only [List.mem_cons] at hch
        rcases hch with rfl | rfl | rfl | rfl | hch
        · exact encB64_props (a / 4) (by omega)
        · exact encB64_props (a % 4 * 16 + b / 16) (by omega)
        · exact encB64_props (b % 16 * 4 + c / 64) (by omega)
        · exact encB64_props (c % 64) (by omega)
        · exact h2 ch hch
      · simp only [List.length_cons]
        omega
      · simp only [List.length_cons]
        omega
      · show (decB64 (encB64 (a / 4)) * 4 +
              decB64 (encB64 (a % 4 * 16 + b / 16)) / 16) ::
            (decB64 (encB64 (a % 4 * 16 + b / 16)) % 16 * 16 +
              decB64 (encB64 (b % 16 * 4 + c / 64)) / 4) ::
            (decB64 (encB64 (b % 16 * 4 + c / 64)) % 4 * 64 +
              decB64 (encB64 (c % 64))) :: decodeQuads d = a :: b :: c :: rest
        rw [decB64_encB64 (a / 4) (by omega),
            decB64_encB64 (a % 4 * 16 + b / 16) (by omega),
            decB64_encB64 (b % 16 * 4 + c / 64) (by omega),
            decB64_encB64 (c % 64) (by omega), h5]
        congr 1
        · omega
        · congr 1
          · omega
          · congr 1
            omega

/-- `base64.b64decode(_, validate=False)` inverts `base64.b64encode` on byte
lists. -/
theorem pyB64Decode_b64encode (data : List Nat) (hb : ∀ x ∈ data, x < 256) :
    pyB64Decode (b64encode data) = some data := by
  obtain ⟨d, p, heq, hch, hmod, hmod1, hdec⟩ := encodeChunks_spec data hb
  have hfilter : (d ++ List.replicate p '=').filter
      (fun c => isB64Char c || c == '=') = d ++ List.replicate p '=' := by
    apply filter_eq_self_of
    intro c hc
    rcases List.mem_append.mp hc with h1 | h2
    · simp [(hch c h1).1]
    · have hcc : c = '=' := List.eq_of_mem_replicate h2
      simp [hcc]
  have htake : (d ++ List.replicate p '=').takeWhile (fun c => c != '=') = d := by
    rw [takeWhile_append_of d _ (fun x hx => by simp [(hch x hx).2.1])]
    have hrep : (List.replicate p '=').takeWhile (fun c => c != '=') = [] := by
      cases p with
      | zero => rfl
      | succ q => rw [List.replicate_succ]; simp [List.takeWhile_cons]
    rw [hrep, List.append_nil]
  show pyB64Decode (encodeChunks data) = some data
  rw [heq]
  unfold pyB64Decode
  simp only [hfilter, htake]
  rw [if_neg (by
      simp only [List.length_append, List.length_replicate]
      omega),
    if_neg hmod1, hdec]

theorem baseMime_no_semi (ct : Str) : ∀ c ∈ baseMime ct, c ≠ ';' := by
  intro c hc
  unfold baseMime at hc
  by_cases hnil : pyStrip (ct.takeWhile (fun ch => ch != ';')) = []
  · rw [if_pos hnil] at hc
    have hall : ∀ x ∈ "application/octet-stream".data, x ≠ ';' := by decide
    exact hall c hc
  · rw [if_neg hnil] at hc
    have hmem := mem_pyStrip hc
    have := List.mem_takeWhile_imp hmem
    simp at this
    exact this

theorem pyStrip_baseMime (ct : Str) : pyStrip (baseMime ct) = baseMime ct := by
  unfold baseMime
  by_cases hnil : pyStrip (ct.takeWhile (fun ch => ch != ';')) = []
  · rw [if_pos hnil]
    decide
  · rw [if_neg hnil]
    exact pyStrip_idem _

theorem baseMime_ne_nil_of_image (ct : Str)
    (h : _is_image_content_type (baseMime ct) = true) : baseMime ct ≠ [] := by
  intro hnil
  rw [hnil] at h
  exact absurd h (by decide)

/-- Decoding a data-URL built by `_as_data_url` from a semicolon-free,
comma-free, stripped, non-empty mime and raw bytes recovers both. -/
theorem try_decode_as_data_url (mime : Str) (data : List Nat)
    (hbytes : ∀ x ∈ data, x < 256)
    (hsemi : ∀ c ∈ mime, c ≠ ';')
    (hcomma : ',' ∉ mime)
    (hstrip : pyStrip mime = mime)
    (hnil : mime ≠ []) :
    try_decode_data_url (_as_data_url mime data) = some (mime, data) := by
  have hshape : _as_data_url mime data =
      ("data:".data ++ mime ++ ";base64".data) ++ ',' :: b64encode data := by
    unfold _as_data_url
    have hpad : ";base64,".data = ";base64".data ++ [','] := rfl
    rw [hpad]
    simp [List.append_assoc]
  rw [hshape]
  have hpre : "data:".data.isPrefixOf
      (("data:".data ++ mime ++ ";base64".data) ++ ',' :: b64encode data) = true := by
    apply List.isPrefixOf_iff_prefix.mpr
    exact ⟨mime ++ ";base64".data ++ ',' :: b64encode data, by
      simp [List.append_assoc]⟩
  have hnotin : ',' ∉ ("data:".data ++ mime ++ ";base64".data) := by
    intro hmem
    have hne_data : ∀ x ∈ "data:".data, x ≠ ',' := by decide
    have hne_b64 : ∀ x ∈ ";base64".data, x ≠ ',' := by decide
    rcases List.mem_append.mp hmem with h1 | h2
    · rcases List.mem_append.mp h1 with h3 | h4
      · exact hne_data ',' h3 rfl
      · exact hcomma h4
    · exact hne_b64 ',' h2 rfl
  have hsplit : splitFirst ','
      (("data:".data ++ mime ++ ";base64".data) ++ ',' :: b64encode data) =
      some ("data:".data ++ mime ++ ";base64".data, b64encode data) :=
    splitFirst_append _ _ hnotin
  have hcont : strContains ";base64".data
      ("data:".data ++ mime ++ ";base64".data) = true := by
    apply strContains_of_suffix
    exact ⟨"data:".data ++ mime, by simp [List.append_assoc]⟩
  have hdrop : ("data:".data ++ mime ++ ";base64".data).drop 5 =
      mime ++ ";base64".data := by
    have hassoc : "data:".data ++ mime ++ ";base64".data =
        "data:".data ++ (mime ++ ";base64".data) := by
      simp [List.append_assoc]
    rw [hassoc]
    have h5 : ("data:".data).length = 5 := rfl
    rw [← h5, List.drop_left]
  have htake : (mime ++ ";base64".data).takeWhile (fun c => c != ';') = mime := by
    rw [takeWhile_append_of mime _ (fun x hx => by simp [hsemi x hx])]
    have hb64 : (";base64".data).takeWhile (fun c => c != ';') = [] := by decide
    rw [hb64, List.append_nil]
  have hdecode : pyB64Decode (b64encode data) = some data :=
    pyB64Decode_b64encode data hbytes
  unfold try_decode_data_url
  rw [hpre]
  simp only [Bool.not_true, Bool.false_eq_true, if_false]
  rw [hsplit]
  simp only []
  rw [hcont]
  simp only [Bool.not_true, Bool.false_eq_true, if_false]
  rw [hdrop, htake, hstrip, if_neg hnil, hdecode]

/-- **C1 amended** (proved).  For a message whose base MIME type (extracted
exactly as the source does) starts with `image/` *and contains no comma*,
`try_decode_data_url (serialize_message_body m)` returns exactly the mime and
the raw body bytes; for a message whose base MIME type is not an image,
serialization returns the decoded text and, *provided that text does not
itself begin with `data:`*, decoding it returns nothing.  (The two
italicised side conditions are what the counterexample forces.) -/
theorem C1_codec_roundtrip (m : Response) (hbytes : ∀ x ∈ m.content, x < 256) :
    (_is_image_content_type (baseMime (_content_type m.headers)) = true →
     ',' ∉ baseMime (_content_type m.headers) →
     try_decode_data_url (serialize_message_body m) =
       some (baseMime (_content_type m.headers), m.content)) ∧
    (_is_image_content_type (baseMime (_content_type m.headers)) = false →
     serialize_message_body m = getText m ∧
     (¬ ("data:".data <+: getText m) →
       try_decode_data_url (serialize_message_body m) = none)) := by
  constructor
  · intro himg hcomma
    have hser : serialize_message_body m =
        _as_data_url (baseMime (_content_type m.headers)) m.content := by
      simp [serialize_message_body, himg]
    rw [hser]
    exact try_decode_as_data_url _ _ hbytes
      (baseMime_no_semi (_content_type m.headers)) hcomma
      (pyStrip_baseMime (_content_type m.headers))
      (baseMime_ne_nil_of_image _ himg)
  · intro himg
    have hser : serialize_message_body m = getText m := by
      simp [serialize_message_body, himg]
    refine ⟨hser, fun hnopre => ?_⟩
    rw [hser]
    unfold try_decode_data_url
    have hpre : "data:".data.isPrefixOf (getText m) = false := by
      cases hx : "data:".data.isPrefixOf (getText m) with
      | false => rfl
      | true => exact absurd (List.isPrefixOf_iff_prefix.mp hx) hnopre
    rw [hpre]
    rfl

/-- An image response whose base mime contains a comma (a legal header
value), for the C1 counterexample. -/
def respImageComma : Response :=
  { status_code := 200
    headers := [("Content-Type".data, "image/png,x".data)]
    content := [1, 2, 3] }

/-- A text response whose body happens to be a well-formed data-URL, for the
C1 counterexample. -/
def respTextDataUrl : Response :=
  { status_code := 200
    headers := [("Content-Type".data, "text/plain".data)]
    content := textBytes "data:x;base64,AAAA".data }

/-- **C1 counterexample.**  Both universally quantified halves of the claim
fail on the code: `respImageComma` has base mime `image/png,x` (an image
mime), yet decoding its serialization yields `none` instead of the promised
mime/bytes pair — the comma in the mime makes `split(",", 1)` cut inside the
metadata, so the `;base64` marker is not found; and `respTextDataUrl` is not
an image, yet decoding its serialization yields `some ("x", [0,0,0])`
instead of the promised nothing, because the text body itself parses as a
data-URL. -/
theorem C1_counterexample :
    _is_image_content_type (baseMime (_content_type respImageComma.headers)) = true ∧
    try_decode_data_url (serialize_message_body respImageComma) = none ∧
    _is_image_content_type (baseMime (_content_type respTextDataUrl.headers)) = false ∧
    serialize_message_body respTextDataUrl = getText respTextDataUrl ∧
    try_decode_data_url (serialize_message_body respTextDataUrl) =
      some ("x".data, [0, 0, 0]) := by
  decide

/-- A well-behaved image response, for the C1 witness. -/
def respImage : Response :=
  { status_code := 200
    headers := [("Content-Type".data, "image/png".data)]
    content := [1, 2, 3] }

/-- A plain text response, for the C1 witness. -/
def respText : Response :=
  { status_code := 200
    headers := [("Content-Type".data, "text/plain".data)]
    content := textBytes "hello".data }

/-- Witness for C1: the image round-trip at mime `image/png` with bytes
`[1,2,3]`, and the text path at a plain body. -/
theorem C1_codec_roundtrip_witness :
    try_decode_data_url (serialize_message_body respImage) =
      some (baseMime (_content_type respImage.headers), respImage.content) ∧
    serialize_message_body respText = getText respText ∧
    try_decode_data_url (serialize_message_body respText) = none := by
  have h1 := (C1_codec_roundtrip respImage (by decide)).1 (by decide)
    (by decide)
  have h2 := (C1_codec_roundtrip respText (by decide)).2 (by decide)
  exact ⟨h1, h2.1, h2.2 (by
    rw [← List.isPrefixOf_iff_prefix]
    decide)⟩

end Bridge
